import Mathlib

/-!
Verification development for the `modmaps` archive-access and map-assembly
layer.  The definitions below are shallow embeddings of the TypeScript code
in `packages/clis/parser/game-files/scs-archive.ts` and of the map assembly
pass (`postProcess`).  Machine integers are modelled as `Nat`/`Int` with
explicit `% 2^w` where overflow matters; buffers are `List ℕ` of byte
values; fallible code returns `Except String`.
-/

/-! ### JS `Map` built from a list of key/value pairs

`new Map(pairs)` inserts pairs in order, later pairs overwriting earlier
ones with the same key; `get` returns the surviving value. -/

def jsMapOfList {K V : Type} [DecidableEq K] (pairs : List (K × V)) : K → Option V :=
  pairs.foldl (fun m kv => fun k => if k = kv.1 then some kv.2 else m k) (fun _ => none)

/-- `jsMapOfList` looked up at `k` is the last pair in the list whose key is
`k` (JS `Map.set` semantics: last writer wins). -/
theorem jsMapOfList_eq_find_reverse {K V : Type} [DecidableEq K]
    (pairs : List (K × V)) (k : K) :
    jsMapOfList pairs k = ((pairs.reverse.find? fun kv => k = kv.1).map Prod.snd) := by
  induction pairs using List.reverseRecOn with
  | nil => rfl
  | append_singleton xs kv ih =>
    simp only [jsMapOfList, List.foldl_append, List.foldl_cons, List.foldl_nil,
      List.reverse_append, List.reverse_cons, List.reverse_nil, List.nil_append,
      List.cons_append, List.find?_cons] at *
    by_cases hk : k = kv.1
    · simp [hk]
    · simp only [hk, if_neg, decide_eq_true_eq]
      simpa [decide_eq_false hk] using ih

/-! ### `createStore` (scs-archive.ts lines 341-349)

```ts
export function createStore<V extends { hash: bigint }>(values, salt) {
  const map = new Map(values.map(v => [v.hash, v]));
  return {
    get: (key: string) => map.get(city64(salt === 0 ? key : salt + key)),
  };
}
```

`city64` is a native binding (cityhash); it is treated as an uninterpreted
function `String → ℕ`.  In JS, `salt + key` with a number `salt` and string
`key` coerces the number to its decimal string and concatenates. -/

def storeLookupString (salt : ℤ) (key : String) : String :=
  if salt = 0 then key else toString salt ++ key

def storeGet {V : Type} (city64 : String → ℕ) (hash : V → ℕ)
    (values : List V) (salt : ℤ) (key : String) : Option V :=
  jsMapOfList (values.map fun v => (hash v, v)) (city64 (storeLookupString salt key))

/-- C1 -- A store lookup built by the V2 reader hashes the key as
`city64(path)` when the salt is zero and as `city64(decimal_repr(salt) ++ path)`
otherwise; with salt 7 the lookup key for `"material/ui/map"` is the string
`"7material/ui/map"`. -/
theorem createStore_salted_lookup_key {V : Type} (city64 : String → ℕ)
    (hash : V → ℕ) (values : List V) (salt : ℤ) (p : String) :
    storeGet city64 hash values salt p
      = jsMapOfList (values.map fun v => (hash v, v))
          (city64 (if salt = 0 then p else Int.repr salt ++ p))
    ∧ storeLookupString 7 "material/ui/map" = "7material/ui/map" := by
  constructor
  · simp only [storeGet, storeLookupString]
    rfl
  · rfl

/-- C10 -- `createStore` raises no error on duplicate hashes: `new Map`
silently lets later pairs overwrite earlier ones, so a lookup whose hashed
key collides returns the entry appearing last in the `values` list.
(The construction is total, so "no error is raised" is immediate.) -/
theorem createStore_duplicate_hash_last_wins {V : Type} (city64 : String → ℕ)
    (hash : V → ℕ) (salt : ℤ) (key : String) (l1 l2 l3 : List V) (v1 v2 : V)
    (hdup : hash v1 = hash v2)
    (hk : city64 (storeLookupString salt key) = hash v2)
    (hlast : ∀ w ∈ l3, hash w ≠ hash v2) :
    storeGet city64 hash (l1 ++ v1 :: (l2 ++ v2 :: l3)) salt key = some v2 := by
  rw [storeGet, jsMapOfList_eq_find_reverse, hk]
  have h3 : (((l3.map fun v => (hash v, v)).reverse).find? fun kv => hash v2 = kv.1)
      = none := by
    rw [List.find?_eq_none]
    intro kv hkv
    simp only [List.mem_reverse, List.mem_map] at hkv
    obtain ⟨w, hw, rfl⟩ := hkv
    simpa [eq_comm] using hlast w hw
  simp [List.reverse_append, List.find?_append, h3]

/-- Witness for `createStore_duplicate_hash_last_wins`: two entries with hash
5 and distinct payloads 1 and 2; the lookup returns the second. -/
theorem createStore_duplicate_hash_last_wins_witness :
    storeGet (fun _ => 5) Prod.fst
        (([] : List (ℕ × ℕ)) ++ (5, 1) :: ([] ++ (5, 2) :: [])) 0 "k" = some (5, 2) :=
  createStore_duplicate_hash_last_wins (fun _ => 5) Prod.fst 0 "k" [] [] [] (5, 1) (5, 2)
    rfl rfl (by intro w hw; cases hw)

/-! ### Compression tags (scs-archive.ts lines 73-96) -/

inductive Compression : Type where
  | none
  | zlib
  | zlibHeaderless
  | gdeflate
  | zstd
deriving DecidableEq, Repr

/-- `toCompression` (lines 81-96): decode the numeric tag; unknown values
throw. -/
def toCompression (compression : ℕ) : Except String Compression :=
  if compression = 0 then .ok Compression.none
  else if compression = 1 then .ok Compression.zlib
  else if compression = 2 then .ok Compression.zlibHeaderless
  else if compression = 3 then .ok Compression.gdeflate
  else if compression = 4 then .ok Compression.zstd
  else .error ("unknown compression value: " ++ toString compression)

/-! ### `ScsArchiveV2.readData` (lines 321-338)

```ts
private readData({ offset, compressedSize, uncompressedSize }): Buffer {
  const buffer = Buffer.alloc(compressedSize);
  fs.readSync(this.fd, buffer, { length: buffer.length, position: offset });
  return compressedSize !== uncompressedSize ? zlib.inflateSync(buffer) : buffer;
}
```

`raw` stands for the `compressedSize` bytes read from disk at `offset`;
`inflate` is zlib inflate, treated as an uninterpreted function. -/

def readData (inflate : List ℕ → List ℕ) (raw : List ℕ)
    (compressedSize uncompressedSize : ℕ) : List ℕ :=
  if compressedSize ≠ uncompressedSize then inflate raw else raw

/-- `EntryV2Header` (lines 51-57) is 16 bytes: u64 hash, u32 metadataIndex,
u16 metadataCount, u8 flags bitfield, u8 someByte. -/
def entryV2HeaderSize : ℕ := 8 + 4 + 2 + 1 + 1

/-- The V2 header fields used by the table reads (lines 36-49). -/
structure FileHeaderV2S : Type where
  salt : ℤ
  entryTableCount : ℕ
  entryTableCompressedSize : ℕ
  metadataTableSize : ℕ
  metadataTableCompressedSize : ℕ
deriving DecidableEq, Repr

/-- Entry-table read in `parseEntries` (lines 221-230): expected
uncompressed size is `EntryV2Header.size() * entryTableCount`. -/
def readEntryTable (inflate : List ℕ → List ℕ) (hdr : FileHeaderV2S)
    (raw : List ℕ) : List ℕ :=
  readData inflate raw hdr.entryTableCompressedSize
    (entryV2HeaderSize * hdr.entryTableCount)

/-- Metadata-table read in `createMetadataMap` (lines 255-259): expected
uncompressed size is `metadataTableSize`. -/
def readMetadataTable (inflate : List ℕ → List ℕ) (hdr : FileHeaderV2S)
    (raw : List ℕ) : List ℕ :=
  readData inflate raw hdr.metadataTableCompressedSize hdr.metadataTableSize

/-- C3 -- Both table reads of the V2 reader run the bytes read from disk
through zlib inflate iff the table's compressed size differs from its
expected uncompressed size (16 bytes per entry-table record, resp. the
declared metadata table size); when the sizes agree the bytes are returned
unchanged. -/
theorem readData_inflates_iff_size_differs (inflate : List ℕ → List ℕ)
    (hdr : FileHeaderV2S) (raw raw' : List ℕ) :
    (hdr.entryTableCompressedSize ≠ entryV2HeaderSize * hdr.entryTableCount →
      readEntryTable inflate hdr raw = inflate raw)
    ∧ (hdr.entryTableCompressedSize = entryV2HeaderSize * hdr.entryTableCount →
      readEntryTable inflate hdr raw = raw)
    ∧ (hdr.metadataTableCompressedSize ≠ hdr.metadataTableSize →
      readMetadataTable inflate hdr raw' = inflate raw')
    ∧ (hdr.metadataTableCompressedSize = hdr.metadataTableSize →
      readMetadataTable inflate hdr raw' = raw') := by
  refine ⟨fun h => ?_, fun h => ?_, fun h => ?_, fun h => ?_⟩ <;>
    simp [readEntryTable, readMetadataTable, readData, h]

/-- Witness for `readData_inflates_iff_size_differs`: a header whose entry
table sizes differ (inflated) and whose metadata table sizes agree
(returned unchanged). -/
theorem readData_inflates_iff_size_differs_witness :
    readEntryTable (fun _ => [7]) ⟨0, 1, 3, 5, 5⟩ [1, 2, 3] = [7]
    ∧ readMetadataTable (fun _ => [7]) ⟨0, 1, 3, 5, 5⟩ [1, 2, 3, 4, 5] = [1, 2, 3, 4, 5] :=
  ⟨(readData_inflates_iff_size_differs (fun _ => [7]) ⟨0, 1, 3, 5, 5⟩ [1, 2, 3] []).1
      (by decide),
    (readData_inflates_iff_size_differs (fun _ => [7]) ⟨0, 1, 3, 5, 5⟩ []
      [1, 2, 3, 4, 5]).2.2.2 rfl⟩

/-! ### `ScsArchiveEntryV2.read` (lines 457-499)

`rawData` stands for the `compressedSize` bytes read at the entry's offset
(the source asserts the read was complete).  The native decoders are
uninterpreted: `inflate` is `zlib.inflateSync`; `gdeflateFn inp n` models
the native `gdeflate(inBuffer, outBuffer)` call with `outBuffer` allocated
at size `n`, returning the integer result code and the output buffer's
final contents (the buffer's length stays `n`; theorems that need this
carry it as a hypothesis on `gdeflateFn`). -/

/-- `EntryV2Metadata` (lines 351-358). -/
structure EntryV2Metadata : Type where
  hash : ℕ
  offset : ℕ
  compressedSize : ℕ
  uncompressedSize : ℕ
  compression : Compression
  isDirectory : Bool
deriving DecidableEq, Repr

/-- `TileStreamHeader` (lines 449-455): u8 id, u8 magic, u16 numTiles,
u32 tileSizeIdx, u32 lastTileSize. -/
def tileStreamHeaderSize : ℕ := 1 + 1 + 2 + 4 + 4

def entryRead (inflate : List ℕ → List ℕ) (gdeflateFn : List ℕ → ℕ → ℤ × List ℕ)
    (md : EntryV2Metadata) (rawData : List ℕ) : Except String (List ℕ) :=
  match md.compression with
  | Compression.none => .ok rawData
  | Compression.zlib => .ok (inflate rawData)
  | Compression.gdeflate =>
      let r := gdeflateFn (rawData.drop tileStreamHeaderSize) md.uncompressedSize
      if r.1 ≠ 0 then .error ("gdeflate error: " ++ toString r.1) else .ok r.2
  | Compression.zlibHeaderless => .error "unsupported compression type"
  | Compression.zstd => .error "unsupported compression type"

/-- C4 -- Under the archive-format invariants stated by the spec (an
uncompressed entry has equal compressed and uncompressed sizes; a
zlib-compressed entry's inflate output has the declared uncompressed size)
and the fact that the native gdeflate output buffer is allocated at the
declared uncompressed size, every successful `read()` of a V2 entry returns
a buffer whose length equals the entry's declared uncompressed size. -/
theorem entryRead_length_eq_uncompressedSize (inflate : List ℕ → List ℕ)
    (gdeflateFn : List ℕ → ℕ → ℤ × List ℕ) (md : EntryV2Metadata)
    (rawData out : List ℕ)
    (hraw : rawData.length = md.compressedSize)
    (hnone : md.compression = Compression.none →
      md.compressedSize = md.uncompressedSize)
    (hzlib : md.compression = Compression.zlib →
      (inflate rawData).length = md.uncompressedSize)
    (hgd : ∀ inp n, ((gdeflateFn inp n).2).length = n)
    (hok : entryRead inflate gdeflateFn md rawData = .ok out) :
    out.length = md.uncompressedSize := by
  unfold entryRead at hok
  cases hc : md.compression <;> rw [hc] at hok
  · cases hok
    exact hraw.trans (hnone hc)
  · cases hok
    exact hzlib hc
  · cases hok
  · by_cases hz : (gdeflateFn (rawData.drop tileStreamHeaderSize) md.uncompressedSize).1 ≠ 0
    · simp [hz] at hok
    · simp only [hz, if_neg, ite_false, not_not, Except.ok.injEq] at hok
      subst hok
      exact hgd _ _
  · cases hok

/-- Witness for `entryRead_length_eq_uncompressedSize`: an uncompressed
entry of size 3 returns its 3 raw bytes. -/
theorem entryRead_length_eq_uncompressedSize_witness :
    ([9, 9, 9] : List ℕ).length = 3 :=
  entryRead_length_eq_uncompressedSize (fun b => b) (fun _ n => (0, List.replicate n 0))
    ⟨0, 0, 3, 3, Compression.none, false⟩ [9, 9, 9] [9, 9, 9] rfl (fun _ => rfl)
    (by intro h; cases h) (fun inp n => List.length_replicate n 0) rfl

/-- C5 -- For a tiled-parallel-deflate (gdeflate) entry, `read()` strips
exactly the first 12 bytes (the tile-stream header, whose field sizes sum
to 12) from the raw payload before invoking the parallel deflate decoder,
errors exactly when the decoder's result code is nonzero, and otherwise
returns the decoder's output buffer. -/
theorem entryRead_gdeflate_strips_tile_header (inflate : List ℕ → List ℕ)
    (gdeflateFn : List ℕ → ℕ → ℤ × List ℕ) (md : EntryV2Metadata)
    (rawData : List ℕ) (hc : md.compression = Compression.gdeflate) :
    tileStreamHeaderSize = 12
    ∧ ((∃ s, entryRead inflate gdeflateFn md rawData = .error s)
        ↔ (gdeflateFn (rawData.drop 12) md.uncompressedSize).1 ≠ 0)
    ∧ ((gdeflateFn (rawData.drop 12) md.uncompressedSize).1 = 0 →
        entryRead inflate gdeflateFn md rawData
          = .ok (gdeflateFn (rawData.drop 12) md.uncompressedSize).2) := by
  have h12 : tileStreamHeaderSize = 12 := rfl
  refine ⟨rfl, ?_, ?_⟩
  · constructor
    · rintro ⟨s, hs⟩
      intro hz
      rw [entryRead, hc] at hs
      rw [h12] at hs
      simp [hz] at hs
    · intro hz
      refine ⟨"gdeflate error: "
        ++ toString (gdeflateFn (rawData.drop 12) md.uncompressedSize).1, ?_⟩
      rw [entryRead, hc, h12]
      simp [hz]
  · intro hz
    rw [entryRead, hc, h12]
    simp [hz]

/-- Witness for `entryRead_gdeflate_strips_tile_header`: a 14-byte payload
whose decoder sees only the last 2 bytes; with a zero result code the read
succeeds with the decoder output. -/
theorem entryRead_gdeflate_strips_tile_header_witness :
    tileStreamHeaderSize = 12
    ∧ ((∃ s, entryRead (fun b => b)
          (fun inp _ => (0, inp)) ⟨0, 0, 14, 2, Compression.gdeflate, false⟩
          [1, 2, 3, 4, 5, 6, 7, 8, 9, 10, 11, 12, 13, 14] = .error s)
        ↔ ((fun (inp : List ℕ) (_ : ℕ) => ((0 : ℤ), inp))
            (([1, 2, 3, 4, 5, 6, 7, 8, 9, 10, 11, 12, 13, 14] : List ℕ).drop 12) 2).1 ≠ 0)
    ∧ (((fun (inp : List ℕ) (_ : ℕ) => ((0 : ℤ), inp))
          (([1, 2, 3, 4, 5, 6, 7, 8, 9, 10, 11, 12, 13, 14] : List ℕ).drop 12) 2).1 = 0 →
        entryRead (fun b => b) (fun inp _ => (0, inp))
          ⟨0, 0, 14, 2, Compression.gdeflate, false⟩
          [1, 2, 3, 4, 5, 6, 7, 8, 9, 10, 11, 12, 13, 14]
          = .ok (((fun (inp : List ℕ) (_ : ℕ) => ((0 : ℤ), inp))
              (([1, 2, 3, 4, 5, 6, 7, 8, 9, 10, 11, 12, 13, 14] : List ℕ).drop 12) 2).2)) :=
  entryRead_gdeflate_strips_tile_header (fun b => b) (fun inp _ => (0, inp))
    ⟨0, 0, 14, 2, Compression.gdeflate, false⟩
    [1, 2, 3, 4, 5, 6, 7, 8, 9, 10, 11, 12, 13, 14] rfl

/-! ### Byte-level helpers for the restructure-based binary layouts -/

def u32le (n : ℕ) : List ℕ :=
  [n % 256, n / 256 % 256, n / 2 ^ 16 % 256, n / 2 ^ 24 % 256]

def asciiBytes (s : String) : List ℕ := s.data.map Char.toNat

def readU16le (b : List ℕ) (i : ℕ) : ℕ := b.getD i 0 + 256 * b.getD (i + 1) 0

def readU24le (b : List ℕ) (i : ℕ) : ℕ :=
  b.getD i 0 + 256 * b.getD (i + 1) 0 + 2 ^ 16 * b.getD (i + 2) 0

def readU32le (b : List ℕ) (i : ℕ) : ℕ :=
  b.getD i 0 + 256 * b.getD (i + 1) 0 + 2 ^ 16 * b.getD (i + 2) 0
    + 2 ^ 24 * b.getD (i + 3) 0

def readU64le (b : List ℕ) (i : ℕ) : ℕ :=
  readU32le b i + 2 ^ 32 * readU32le b (i + 4)

/-! ### `ImageMeta` (scs-archive.ts lines 99-110)

8 bytes: u16 width-1, u16 height-1, packed u32.  The JS bit operations
`n & 0xf`, `(n >> k) & mask` on a `uint32le` value are `n % 2^m` and
`n / 2^k % 2^m` (the shifts stay within 32 bits, so the JS signed-32-bit
coercion never changes the masked result). -/

structure ImageMetaImage : Type where
  mipmapCount : ℕ
  format : ℕ
  isCube : Bool
  count : ℕ
  pitchAlignment : ℕ
  imageAlignment : ℕ
deriving DecidableEq, Repr

structure ImageMetaS : Type where
  width : ℕ
  height : ℕ
  image : ImageMetaImage
deriving DecidableEq, Repr

def parseImageMeta (b : List ℕ) : ImageMetaS :=
  { width := readU16le b 0 + 1
    height := readU16le b 2 + 1
    image :=
      let n := readU32le b 4
      { mipmapCount := 1 + n % 16
        format := n / 2 ^ 4 % 256
        isCube := n / 2 ^ 12 % 4 != 0
        count := n / 2 ^ 14 % 64 + 1
        pitchAlignment := 2 ^ (n / 2 ^ 20 % 16)
        imageAlignment := 2 ^ (n / 2 ^ 24 % 16) } }

/-! ### DDS container layout

Modelled from the spec: `DdsHeader` and `DdsHeaderDX10` come from
`./dds-parser`, which is not part of the sources; the spec describes the
standard layout -- a 124-byte legacy header (whose pixel format block holds
a 4-byte fourCC at header offset 80, i.e. file offset 84) followed by a
20-byte DX10 extension.  `D3d10ResourceDimension.Texture2d` and
`D3d10ResourceMiscFlag.TextureCube` come from `./enum-dds-format`, also
missing; the spec names them as the standard D3D10 values (Texture2D = 3,
TextureCube misc flag = 0x4). -/

structure DdsPixelFormatS : Type where
  size : ℕ
  flags : ℕ
  fourCc : String
  rgbBitCount : ℕ
  rBitMask : ℕ
  gBitMask : ℕ
  bBitMask : ℕ
  aBitMask : ℕ

structure DdsHeaderS : Type where
  size : ℕ
  flags : ℕ
  height : ℕ
  width : ℕ
  pitchOrLinearSize : ℕ
  depth : ℕ
  mipMapCount : ℕ
  ddsPixelFormat : DdsPixelFormatS
  caps : ℕ
  caps2 : ℕ
  caps3 : ℕ
  caps4 : ℕ

def ddsPixelFormatToBuffer (pf : DdsPixelFormatS) : List ℕ :=
  u32le pf.size ++ u32le pf.flags ++ asciiBytes pf.fourCc ++ u32le pf.rgbBitCount
    ++ u32le pf.rBitMask ++ u32le pf.gBitMask ++ u32le pf.bBitMask ++ u32le pf.aBitMask

def ddsHeaderToBuffer (h : DdsHeaderS) : List ℕ :=
  u32le h.size ++ u32le h.flags ++ u32le h.height ++ u32le h.width
    ++ u32le h.pitchOrLinearSize ++ u32le h.depth ++ u32le h.mipMapCount
    ++ List.replicate 44 0
    ++ ddsPixelFormatToBuffer h.ddsPixelFormat
    ++ u32le h.caps ++ u32le h.caps2 ++ u32le h.caps3 ++ u32le h.caps4
    ++ List.replicate 4 0

structure DdsHeaderDX10S : Type where
  dxgiFormat : ℕ
  resourceDimension : ℕ
  miscFlag : ℕ
  arraySize : ℕ
  miscFlags2 : ℕ

def ddsHeaderDX10ToBuffer (h : DdsHeaderDX10S) : List ℕ :=
  u32le h.dxgiFormat ++ u32le h.resourceDimension ++ u32le h.miscFlag
    ++ u32le h.arraySize ++ u32le h.miscFlags2

def texture2dDimension : ℕ := 3

def textureCubeMiscFlag : ℕ := 4

def ddsHeaderSize : ℕ := 124

def ddsHeaderDX10Size : ℕ := 20

/-! ### `ScsArchiveTobjFile.read` (lines 519-580)

`ddsBytes` is the raw pixel payload obtained from `super.read()`. -/

def tobjRead (im : ImageMetaS) (ddsBytes : List ℕ) : List ℕ :=
  let header := ddsHeaderToBuffer
    { size := ddsHeaderSize
      flags := 0
      height := im.height
      width := im.width
      pitchOrLinearSize := ddsBytes.length
      depth := 0
      mipMapCount := im.image.mipmapCount
      ddsPixelFormat :=
        { size := 32
          flags := 0x4
          fourCc := "DX10"
          rgbBitCount := 0
          rBitMask := 0
          gBitMask := 0
          bBitMask := 0
          aBitMask := 0 }
      caps := 0
      caps2 := 0
      caps3 := 0
      caps4 := 0 }
  let headerDX10 := ddsHeaderDX10ToBuffer
    { dxgiFormat := im.image.format
      resourceDimension := texture2dDimension
      miscFlag := if im.image.isCube then textureCubeMiscFlag else 0
      arraySize := 1
      miscFlags2 := 0 }
  asciiBytes "DDS " ++ header ++ headerDX10 ++ ddsBytes

theorem asciiBytes_DDSmagic : asciiBytes "DDS " = [68, 68, 83, 32] := rfl

theorem asciiBytes_DX10 : asciiBytes "DX10" = [68, 88, 49, 48] := rfl

theorem replicate44_zeros : List.replicate 44 (0 : ℕ) =
    [0, 0, 0, 0, 0, 0, 0, 0, 0, 0, 0, 0, 0, 0, 0, 0, 0, 0, 0, 0, 0, 0,
      0, 0, 0, 0, 0, 0, 0, 0, 0, 0, 0, 0, 0, 0, 0, 0, 0, 0, 0, 0, 0, 0] := rfl

theorem replicate4_zeros : List.replicate 4 (0 : ℕ) = [0, 0, 0, 0] := rfl

theorem readU32le_cons4 (a b c d : ℕ) (rest : List ℕ) :
    readU32le (a :: b :: c :: d :: rest) 0 = a + 256 * b + 2 ^ 16 * c + 2 ^ 24 * d := rfl

/-- C2 -- For every texture-object entry with raw pixel payload of length
`L`, `read()` returns a buffer of length exactly `4 + 124 + 20 + L = 148 + L`
that starts with the 4 ASCII bytes `"DDS "`, whose legacy header carries
`pitchOrLinearSize = L` (the little-endian u32 at byte offset 20) and the
pixel-format fourCC `"DX10"` at byte offset 84, and whose DX10 extension
has the cubemap misc flag (the u32 at byte offset 136) set iff the image
descriptor's cubemap bit (bits 12-13 of the packed descriptor word) is
nonzero. -/
theorem tobjRead_dds_container (mb ddsBytes : List ℕ)
    (hL : ddsBytes.length < 2 ^ 32) :
    (tobjRead (parseImageMeta mb) ddsBytes).length = 148 + ddsBytes.length
    ∧ (tobjRead (parseImageMeta mb) ddsBytes).take 4 = asciiBytes "DDS "
    ∧ ((tobjRead (parseImageMeta mb) ddsBytes).drop 84).take 4 = asciiBytes "DX10"
    ∧ readU32le ((tobjRead (parseImageMeta mb) ddsBytes).drop 20) 0 = ddsBytes.length
    ∧ readU32le ((tobjRead (parseImageMeta mb) ddsBytes).drop 136) 0
        = (if (parseImageMeta mb).image.isCube then textureCubeMiscFlag else 0)
    ∧ (readU32le ((tobjRead (parseImageMeta mb) ddsBytes).drop 136) 0 ≠ 0
        ↔ readU32le mb 4 / 2 ^ 12 % 4 ≠ 0) := by
  have hflag : readU32le ((tobjRead (parseImageMeta mb) ddsBytes).drop 136) 0
      = (if (parseImageMeta mb).image.isCube then textureCubeMiscFlag else 0) := by
    simp only [tobjRead, ddsHeaderToBuffer, ddsPixelFormatToBuffer, ddsHeaderDX10ToBuffer,
      u32le, asciiBytes_DDSmagic, asciiBytes_DX10, replicate44_zeros, replicate4_zeros,
      List.cons_append, List.nil_append, List.append_assoc,
      List.drop_succ_cons, List.drop_zero, readU32le_cons4]
    by_cases hcube : (parseImageMeta mb).image.isCube
    · simp [hcube, textureCubeMiscFlag]
    · simp [hcube]
  refine ⟨?_, ?_, ?_, ?_, hflag, ?_⟩
  · simp only [tobjRead, ddsHeaderToBuffer, ddsPixelFormatToBuffer, ddsHeaderDX10ToBuffer,
      u32le, asciiBytes_DDSmagic, asciiBytes_DX10, replicate44_zeros, replicate4_zeros,
      List.cons_append, List.nil_append, List.append_assoc,
      List.length_cons, List.length_append]
    omega
  · simp only [tobjRead, ddsHeaderToBuffer, ddsPixelFormatToBuffer, ddsHeaderDX10ToBuffer,
      u32le, asciiBytes_DDSmagic, asciiBytes_DX10, replicate44_zeros, replicate4_zeros,
      List.cons_append, List.nil_append, List.append_assoc,
      List.take_succ_cons, List.take_zero]
  · simp only [tobjRead, ddsHeaderToBuffer, ddsPixelFormatToBuffer, ddsHeaderDX10ToBuffer,
      u32le, asciiBytes_DDSmagic, asciiBytes_DX10, replicate44_zeros, replicate4_zeros,
      List.cons_append, List.nil_append, List.append_assoc,
      List.drop_succ_cons, List.drop_zero, List.take_succ_cons, List.take_zero]
  · simp only [tobjRead, ddsHeaderToBuffer, ddsPixelFormatToBuffer, ddsHeaderDX10ToBuffer,
      u32le, asciiBytes_DDSmagic, asciiBytes_DX10, replicate44_zeros, replicate4_zeros,
      List.cons_append, List.nil_append, List.append_assoc,
      List.drop_succ_cons, List.drop_zero, readU32le_cons4]
    omega
  · rw [hflag]
    have hbit : (parseImageMeta mb).image.isCube = (readU32le mb 4 / 2 ^ 12 % 4 != 0) := rfl
    rw [hbit]
    unfold textureCubeMiscFlag
    cases h4 : readU32le mb 4 / 2 ^ 12 % 4 with
    | zero => simp
    | succ n => simp

/-- Witness for `tobjRead_dds_container`: the descriptor of a 256 x 256,
9-mipmap, format 0x1C, non-cube image and a 3-byte payload. -/
theorem tobjRead_dds_container_witness :
    (tobjRead (parseImageMeta [255, 0, 255, 0, 200, 1, 0, 0]) [1, 2, 3]).length
        = 148 + ([1, 2, 3] : List ℕ).length
    ∧ (tobjRead (parseImageMeta [255, 0, 255, 0, 200, 1, 0, 0]) [1, 2, 3]).take 4
        = asciiBytes "DDS "
    ∧ ((tobjRead (parseImageMeta [255, 0, 255, 0, 200, 1, 0, 0]) [1, 2, 3]).drop 84).take 4
        = asciiBytes "DX10"
    ∧ readU32le ((tobjRead (parseImageMeta [255, 0, 255, 0, 200, 1, 0, 0]) [1, 2, 3]).drop 20) 0
        = ([1, 2, 3] : List ℕ).length
    ∧ readU32le ((tobjRead (parseImageMeta [255, 0, 255, 0, 200, 1, 0, 0]) [1, 2, 3]).drop 136) 0
        = (if (parseImageMeta [255, 0, 255, 0, 200, 1, 0, 0]).image.isCube
            then textureCubeMiscFlag else 0)
    ∧ (readU32le ((tobjRead (parseImageMeta [255, 0, 255, 0, 200, 1, 0, 0]) [1, 2, 3]).drop 136) 0
          ≠ 0
        ↔ readU32le [255, 0, 255, 0, 200, 1, 0, 0] 4 / 2 ^ 12 % 4 ≠ 0) :=
  tobjRead_dds_container [255, 0, 255, 0, 200, 1, 0, 0] [1, 2, 3] (by norm_num)

/-! ### Metadata descriptors (scs-archive.ts lines 113-163) -/

structure SampleMetaS : Type where
  magFilter : ℕ
  minFilter : ℕ
  mipFilter : ℕ
  addrU : ℕ
  addrV : ℕ
  addrW : ℕ
deriving DecidableEq, Repr

/-- `SampleMeta` (lines 113-124): packed u32. -/
def parseSampleMeta (b : List ℕ) : SampleMetaS :=
  let n := readU32le b 0
  { magFilter := n % 2
    minFilter := n / 2 % 2
    mipFilter := n / 4 % 4
    addrU := n / 2 ^ 4 % 8
    addrV := n / 2 ^ 7 % 8
    addrW := n / 2 ^ 10 % 8 }

/-- `PmaInfoMeta` (lines 127-135).  The four `floatle` fields are kept as
their raw 32-bit little-endian bit patterns (float decoding is irrelevant
to every claim and not modelled). -/
structure PmaInfoS : Type where
  flag : ℕ
  animationLengthBits : ℕ
  skeletonHash : ℕ
  bSphereRadBits : ℕ
  bSphereOrgXBits : ℕ
  bSphereOrgYBits : ℕ
  bSphereOrgZBits : ℕ
deriving DecidableEq, Repr

def parsePmaInfoMeta (b : List ℕ) : PmaInfoS :=
  { flag := readU32le b 0
    animationLengthBits := readU32le b 4
    skeletonHash := readU64le b 8
    bSphereRadBits := readU32le b 16
    bSphereOrgXBits := readU32le b 20
    bSphereOrgYBits := readU32le b 24
    bSphereOrgZBits := readU32le b 28 }

/-- `PmgInfoMeta` (lines 138-140): a single u64 skeleton hash. -/
def parsePmgInfoMeta (b : List ℕ) : ℕ := readU64le b 0

/-- `PlainMeta` (lines 143-150): u24 compressedSize, compression tag in the
upper nibble of byte 3, u24 size, 1 reserved byte, 1 reserved u32, u32
offset-quotient scaled by 16. -/
structure PlainMetaS : Type where
  compressedSize : ℕ
  compression : Compression
  size : ℕ
  offset : ℕ
deriving DecidableEq, Repr

def parsePlainMeta (b : List ℕ) : Except String PlainMetaS :=
  (toCompression (b.getD 3 0 / 2 ^ 4)).map fun c =>
    { compressedSize := readU24le b 0
      compression := c
      size := readU24le b 4
      offset := readU32le b 12 * 16 }

inductive MetadataValue : Type where
  | img : ImageMetaS → MetadataValue
  | sample : SampleMetaS → MetadataValue
  | plain : PlainMetaS → MetadataValue
  | pmaInfo : PmaInfoS → MetadataValue
  | pmgInfo : ℕ → MetadataValue
deriving DecidableEq, Repr

/-- JS `Map.set`: overwrite in place if the key exists, else append. -/
def jsMapSet {V : Type} (m : List (ℕ × V)) (k : ℕ) (v : V) : List (ℕ × V) :=
  if m.any fun kv => kv.1 = k then m.map fun kv => if kv.1 = k then (k, v) else kv
  else m ++ [(k, v)]

/-- `EntryV2Header` (lines 51-57) as a parsed record. -/
structure EntryV2HeaderS : Type where
  hash : ℕ
  metadataIndex : ℕ
  metadataCount : ℕ
  isDirectory : Bool
  someByte : ℕ
deriving DecidableEq, Repr

/-! ### `ScsArchiveV2.createMetadataMap` (lines 250-319)

For each entry header and each `i < metadataCount`, the 4-byte metadata
header at byte offset `4 * (metadataIndex + i)` is read (u24 index, u8
type); recognized informative types (IMG 1, SAMPLE 2, PMA_INFO 5,
PMG_INFO 6, PLAIN 128, DIRECTORY 129, MIP_TAIL 132) store the descriptor
parsed at byte offset `4 * index` into the map keyed by `metadataIndex + i`
together with the raw type byte; MIP_PROXY 3, INLINE_DIRECTORY 4,
MIP_0 130, MIP_1 131 are skipped with the type collected into a set; any
other type throws.  After the loop one aggregate warning is emitted when
the skipped set is nonempty (warnings are returned as a list of emitted
warning payloads). -/

def metaStep (metadataTable : List ℕ)
    (acc : List (ℕ × ℕ × MetadataValue) × Finset ℕ) (key : ℕ) :
    Except String (List (ℕ × ℕ × MetadataValue) × Finset ℕ) :=
  let index := readU24le metadataTable (4 * key)
  let ty := metadataTable.getD (4 * key + 3) 0
  let payload := metadataTable.drop (4 * index)
  if ty = 1 then
    .ok (jsMapSet acc.1 key (ty, MetadataValue.img (parseImageMeta payload)), acc.2)
  else if ty = 2 then
    .ok (jsMapSet acc.1 key (ty, MetadataValue.sample (parseSampleMeta payload)), acc.2)
  else if ty = 5 then
    .ok (jsMapSet acc.1 key (ty, MetadataValue.pmaInfo (parsePmaInfoMeta payload)), acc.2)
  else if ty = 6 then
    .ok (jsMapSet acc.1 key (ty, MetadataValue.pmgInfo (parsePmgInfoMeta payload)), acc.2)
  else if ty = 128 ∨ ty = 129 ∨ ty = 132 then
    (parsePlainMeta payload).map fun p => (jsMapSet acc.1 key (ty, MetadataValue.plain p), acc.2)
  else if ty = 3 ∨ ty = 130 ∨ ty = 131 ∨ ty = 4 then
    .ok (acc.1, insert ty acc.2)
  else
    .error ("unknown metadata type: " ++ toString ty)

def metadataKeys (entryHeaders : List EntryV2HeaderS) : List ℕ :=
  (entryHeaders.map fun h =>
    (List.range h.metadataCount).map fun i => h.metadataIndex + i).flatten

def createMetadataMap (entryHeaders : List EntryV2HeaderS) (metadataTable : List ℕ) :
    Except String (List (ℕ × ℕ × MetadataValue) × List (Finset ℕ)) :=
  match (metadataKeys entryHeaders).foldlM (metaStep metadataTable) ([], ∅) with
  | .error s => .error s
  | .ok acc => .ok (acc.1, if acc.2 = ∅ then [] else [acc.2])

/-- C6 -- While building the metadata map, a header whose type tag is
MIP_PROXY (3), INLINE_DIRECTORY (4), MIP_0 (130) or MIP_1 (131) is skipped
without error (only collected into the warning set); a type tag outside
the recognized set is a hard error; and at most one aggregate warning is
emitted per `parse_entries` run. -/
theorem createMetadataMap_skips_and_rejects (metadataTable : List ℕ)
    (acc : List (ℕ × ℕ × MetadataValue) × Finset ℕ) (key : ℕ) :
    (∀ ty, metadataTable.getD (4 * key + 3) 0 = ty →
      (ty = 3 ∨ ty = 4 ∨ ty = 130 ∨ ty = 131) →
      metaStep metadataTable acc key = .ok (acc.1, insert ty acc.2))
    ∧ (metadataTable.getD (4 * key + 3) 0
          ∉ ({1, 2, 5, 6, 128, 129, 132, 3, 4, 130, 131} : Finset ℕ) →
      ∃ s, metaStep metadataTable acc key = .error s)
    ∧ (∀ entryHeaders m w,
      createMetadataMap entryHeaders metadataTable = .ok (m, w) → w.length ≤ 1) := by
  refine ⟨?_, ?_, ?_⟩
  · intro ty hty hskip
    rw [List.getD_eq_getElem?_getD] at hty
    rcases hskip with rfl | rfl | rfl | rfl <;> simp [metaStep, hty]
  · intro hmem
    simp only [Finset.mem_insert, Finset.mem_singleton, not_or] at hmem
    obtain ⟨h1, h2, h5, h6, h128, h129, h132, h3, h4, h130, h131⟩ := hmem
    rw [List.getD_eq_getElem?_getD] at h1 h2 h5 h6 h128 h129 h132 h3 h4 h130 h131
    refine ⟨"unknown metadata type: " ++ toString (metadataTable[4 * key + 3]?.getD 0), ?_⟩
    simp [metaStep, h1, h2, h5, h6, h128, h129, h132, h3, h4, h130, h131]
  · intro entryHeaders m w hok
    unfold createMetadataMap at hok
    cases hacc : (metadataKeys entryHeaders).foldlM (metaStep metadataTable) ([], ∅) with
    | error s => rw [hacc] at hok; cases hok
    | ok a =>
      rw [hacc] at hok
      simp only [Except.ok.injEq, Prod.mk.injEq] at hok
      obtain ⟨hm, hw⟩ := hok
      subst hw
      by_cases hs : a.2 = ∅ <;> simp [hs]

/-- Witness for `createMetadataMap_skips_and_rejects`: a table whose single
header has type 3 (skipped, collected) and one whose header has type 7
(hard error); the empty run emits no warning. -/
theorem createMetadataMap_skips_and_rejects_witness :
    metaStep [0, 0, 0, 3] ([], ∅) 0 = .ok ([], insert 3 ∅)
    ∧ (∃ s, metaStep [0, 0, 0, 7] ([], ∅) 0 = .error s)
    ∧ ([] : List (Finset ℕ)).length ≤ 1 :=
  ⟨(createMetadataMap_skips_and_rejects [0, 0, 0, 3] ([], ∅) 0).1 3 rfl (Or.inl rfl),
    (createMetadataMap_skips_and_rejects [0, 0, 0, 7] ([], ∅) 0).2.1 (by decide),
    (createMetadataMap_skips_and_rejects [] ([], ∅) 0).2.2 [] [] [] rfl⟩

/-! ### Map assembly pass: road-split detection (part_000, `postProcess`,
lines 979-1052)

Nodes carry rational world coordinates.  `distance` comes from
`@truckermudgeon/base/geom`, which is not under src/; modelled from the
spec as 2D Euclidean distance in map units, with `distance a b < t`
embedded as the square-free comparison
`(a.x-b.x)^2 + (a.y-b.y)^2 < t^2` (equivalent for nonnegative `t`). -/

structure NodeS : Type where
  x : ℚ
  y : ℚ
  z : ℚ
deriving DecidableEq, Repr

structure RoadS : Type where
  startNodeUid : ℕ
  endNodeUid : ℕ
  maybeDivided : Bool
deriving DecidableEq, Repr

inductive SectorItem : Type where
  | road : RoadS → SectorItem
  | terrain : ℕ → ℕ → SectorItem
  | building : String → ℕ → ℕ → SectorItem
  | curve : String → ℕ → ℕ → SectorItem
  | other : SectorItem
deriving DecidableEq, Repr

/-- Per-sector road collection (lines 1001-1003). -/
def collectSectorRoads (items : List SectorItem) : List RoadS :=
  items.filterMap fun i =>
    match i with
    | SectorItem.road r => some r
    | _ => none

/-- The divider filter (lines 1004-1017): terrains, buildings whose scheme
is "scheme20", curves whose model is "0i03a" or "0i03b". -/
def isDividerItem : SectorItem → Bool
  | SectorItem.terrain _ _ => true
  | SectorItem.building scheme _ _ => decide (scheme = "scheme20")
  | SectorItem.curve model _ _ => decide (model = "0i03a" ∨ model = "0i03b")
  | _ => false

def collectSectorDividers (items : List SectorItem) : List SectorItem :=
  items.filter isDividerItem

/-- `distance a b < t` via squared distances. -/
def distSqLt (a b : NodeS) (t : ℚ) : Bool :=
  decide ((a.x - b.x) ^ 2 + (a.y - b.y) ^ 2 < t ^ 2)

def dividerEndpoints : SectorItem → Option (ℕ × ℕ)
  | SectorItem.terrain s e => some (s, e)
  | SectorItem.building _ s e => some (s, e)
  | SectorItem.curve _ s e => some (s, e)
  | _ => none

/-- `splitsRoad` (lines 1030-1040); the threshold is 2 (line 983). -/
def splitsRoad (nodesByUid : ℕ → Option NodeS) (rStart rEnd : NodeS)
    (t : SectorItem) : Bool :=
  match dividerEndpoints t with
  | some (su, eu) =>
    match nodesByUid su, nodesByUid eu with
    | some tStart, some tEnd =>
        (distSqLt rStart tStart 2 && distSqLt rEnd tEnd 2)
          || (distSqLt rStart tEnd 2 && distSqLt rEnd tStart 2)
    | _, _ => false
  | none => false

/-- Per-road body of the sector scan (lines 1026-1050): roads whose start
or end node is unresolvable are dropped; otherwise the road is emitted,
with `maybeDivided` forced to true when some sector divider matches. -/
def processRoad (nodesByUid : ℕ → Option NodeS) (sectorDividers : List SectorItem)
    (r : RoadS) : Option RoadS :=
  match nodesByUid r.startNodeUid, nodesByUid r.endNodeUid with
  | some rStart, some rEnd =>
    if sectorDividers.any (splitsRoad nodesByUid rStart rEnd)
    then some { r with maybeDivided := true }
    else some r
  | _, _ => none

def processSectorRoads (nodesByUid : ℕ → Option NodeS)
    (items : List SectorItem) : List RoadS :=
  (collectSectorRoads items).filterMap
    (processRoad nodesByUid (collectSectorDividers items))

/-- Both resolved endpoints of a divider are within Euclidean distance 2
of the road's endpoints, matched in either orientation (spec wording;
distances squared). -/
def EndpointsMatch (nodesByUid : ℕ → Option NodeS) (rStart rEnd : NodeS)
    (su eu : ℕ) : Prop :=
  ∃ tStart tEnd, nodesByUid su = some tStart ∧ nodesByUid eu = some tEnd
    ∧ (((rStart.x - tStart.x) ^ 2 + (rStart.y - tStart.y) ^ 2 < 4
          ∧ (rEnd.x - tEnd.x) ^ 2 + (rEnd.y - tEnd.y) ^ 2 < 4)
      ∨ ((rStart.x - tEnd.x) ^ 2 + (rStart.y - tEnd.y) ^ 2 < 4
          ∧ (rEnd.x - tStart.x) ^ 2 + (rEnd.y - tStart.y) ^ 2 < 4))

/-- The claim's divider criterion, stated in the spec's words: a terrain, a
building with scheme "scheme20", or a curve with model "0i03a" or "0i03b",
whose endpoints match the road's endpoints within distance 2 in either
orientation. -/
def DividerMatches (nodesByUid : ℕ → Option NodeS) (rStart rEnd : NodeS) :
    SectorItem → Prop
  | SectorItem.terrain su eu => EndpointsMatch nodesByUid rStart rEnd su eu
  | SectorItem.building scheme su eu =>
      scheme = "scheme20" ∧ EndpointsMatch nodesByUid rStart rEnd su eu
  | SectorItem.curve model su eu =>
      (model = "0i03a" ∨ model = "0i03b")
        ∧ EndpointsMatch nodesByUid rStart rEnd su eu
  | _ => False

def swapDivider : SectorItem → SectorItem
  | SectorItem.terrain s e => SectorItem.terrain e s
  | SectorItem.building sch s e => SectorItem.building sch e s
  | SectorItem.curve m s e => SectorItem.curve m e s
  | i => i

theorem splitsRoad_divider_iff (nodesByUid : ℕ → Option NodeS)
    (rStart rEnd : NodeS) (t : SectorItem) :
    (isDividerItem t = true ∧ splitsRoad nodesByUid rStart rEnd t = true)
      ↔ DividerMatches nodesByUid rStart rEnd t := by
  cases t with
  | road r => simp [isDividerItem, DividerMatches]
  | other => simp [isDividerItem, DividerMatches]
  | terrain su eu =>
    simp only [isDividerItem, splitsRoad, dividerEndpoints, DividerMatches,
      EndpointsMatch, true_and]
    cases hsu : nodesByUid su with
    | none => simp [hsu]
    | some tS =>
      cases heu : nodesByUid eu with
      | none => simp [hsu, heu]
      | some tE =>
        simp [hsu, heu, distSqLt]
        norm_num
  | building sch su eu =>
    simp only [isDividerItem, splitsRoad, dividerEndpoints, DividerMatches,
      EndpointsMatch, decide_eq_true_eq]
    by_cases hsch : sch = "scheme20"
    · cases hsu : nodesByUid su with
      | none => simp [hsu]
      | some tS =>
        cases heu : nodesByUid eu with
        | none => simp [hsu, heu]
        | some tE =>
          simp [hsu, heu, hsch, distSqLt]
          norm_num
    · simp [hsch]
  | curve m su eu =>
    simp only [isDividerItem, splitsRoad, dividerEndpoints, DividerMatches,
      EndpointsMatch, decide_eq_true_eq]
    by_cases hm : m = "0i03a" ∨ m = "0i03b"
    · cases hsu : nodesByUid su with
      | none => simp [hsu, hm]
      | some tS =>
        cases heu : nodesByUid eu with
        | none => simp [hsu, heu, hm]
        | some tE =>
          simp [hsu, heu, hm, distSqLt]
          norm_num
    · simp [hm]

theorem splitsRoad_swap_eq (nodesByUid : ℕ → Option NodeS)
    (rStart rEnd : NodeS) (t : SectorItem) :
    splitsRoad nodesByUid rStart rEnd (swapDivider t)
      = splitsRoad nodesByUid rStart rEnd t := by
  cases t with
  | road r => rfl
  | other => rfl
  | terrain su eu =>
    simp only [swapDivider, splitsRoad, dividerEndpoints]
    cases nodesByUid su <;> cases nodesByUid eu <;> simp [Bool.or_comm]
  | building sch su eu =>
    simp only [swapDivider, splitsRoad, dividerEndpoints]
    cases nodesByUid su <;> cases nodesByUid eu <;> simp [Bool.or_comm]
  | curve m su eu =>
    simp only [swapDivider, splitsRoad, dividerEndpoints]
    cases nodesByUid su <;> cases nodesByUid eu <;> simp [Bool.or_comm]

/-- C7 -- A road whose start and end nodes resolve (and which is not
already flagged) is emitted with `maybeDivided = true` iff some divider in
the same sector's item list -- a terrain, a building with scheme
"scheme20", or a curve with model "0i03a" or "0i03b" -- has endpoints each
within Euclidean distance 2 of the road's endpoints, matched in either
orientation; and the flagging outcome is unchanged when a divider's start
and end nodes are swapped. -/
theorem road_flagged_maybeDivided_iff (nodesByUid : ℕ → Option NodeS)
    (items : List SectorItem) (r : RoadS) (rStart rEnd : NodeS)
    (hS : nodesByUid r.startNodeUid = some rStart)
    (hE : nodesByUid r.endNodeUid = some rEnd)
    (hnd : r.maybeDivided = false) :
    ((processRoad nodesByUid (collectSectorDividers items) r).map RoadS.maybeDivided
        = some true
      ↔ ∃ t ∈ items, DividerMatches nodesByUid rStart rEnd t)
    ∧ ∀ t, splitsRoad nodesByUid rStart rEnd (swapDivider t)
        = splitsRoad nodesByUid rStart rEnd t := by
  refine ⟨?_, splitsRoad_swap_eq nodesByUid rStart rEnd⟩
  rw [processRoad, hS, hE]
  dsimp only
  by_cases ha : (collectSectorDividers items).any (splitsRoad nodesByUid rStart rEnd)
  · rw [if_pos ha]
    simp only [Option.map_some', Option.some.injEq, true_iff]
    obtain ⟨t, ht, hsp⟩ := List.any_eq_true.mp ha
    rw [collectSectorDividers, List.mem_filter] at ht
    exact ⟨t, ht.1, (splitsRoad_divider_iff nodesByUid rStart rEnd t).mp ⟨ht.2, hsp⟩⟩
  · rw [if_neg ha]
    simp only [Option.map_some', Option.some.injEq, hnd]
    constructor
    · intro h
      cases h
    · rintro ⟨t, ht, hm⟩
      obtain ⟨hd, hsp⟩ := (splitsRoad_divider_iff nodesByUid rStart rEnd t).mpr hm
      exact absurd (List.any_eq_true.mpr
        ⟨t, List.mem_filter.mpr ⟨ht, hd⟩, hsp⟩) ha

/-- Witness for `road_flagged_maybeDivided_iff`: the spec's S6 scenario --
road (0,0)-(100,0), terrain (0.5,0)-(100.5,0) in the same sector. -/
theorem road_flagged_maybeDivided_iff_witness :
    ((processRoad
        (fun u => if u = 1 then some ⟨0, 0, 0⟩ else if u = 2 then some ⟨100, 0, 0⟩
          else if u = 3 then some ⟨1/2, 0, 0⟩ else if u = 4 then some ⟨201/2, 0, 0⟩
          else none)
        (collectSectorDividers [SectorItem.terrain 3 4])
        ⟨1, 2, false⟩).map RoadS.maybeDivided = some true
      ↔ ∃ t ∈ [SectorItem.terrain 3 4],
          DividerMatches
            (fun u => if u = 1 then some ⟨0, 0, 0⟩ else if u = 2 then some ⟨100, 0, 0⟩
              else if u = 3 then some ⟨1/2, 0, 0⟩ else if u = 4 then some ⟨201/2, 0, 0⟩
              else none)
            ⟨0, 0, 0⟩ ⟨100, 0, 0⟩ t)
    ∧ ∀ t, splitsRoad
        (fun u => if u = 1 then some ⟨0, 0, 0⟩ else if u = 2 then some ⟨100, 0, 0⟩
          else if u = 3 then some ⟨1/2, 0, 0⟩ else if u = 4 then some ⟨201/2, 0, 0⟩
          else none)
        ⟨0, 0, 0⟩ ⟨100, 0, 0⟩ (swapDivider t)
      = splitsRoad
        (fun u => if u = 1 then some ⟨0, 0, 0⟩ else if u = 2 then some ⟨100, 0, 0⟩
          else if u = 3 then some ⟨1/2, 0, 0⟩ else if u = 4 then some ⟨201/2, 0, 0⟩
          else none)
        ⟨0, 0, 0⟩ ⟨100, 0, 0⟩ t :=
  road_flagged_maybeDivided_iff
    (fun u => if u = 1 then some ⟨0, 0, 0⟩ else if u = 2 then some ⟨100, 0, 0⟩
      else if u = 3 then some ⟨1/2, 0, 0⟩ else if u = 4 then some ⟨201/2, 0, 0⟩
      else none)
    [SectorItem.terrain 3 4] ⟨1, 2, false⟩ ⟨0, 0, 0⟩ ⟨100, 0, 0⟩ rfl rfl rfl

/-! ### Map assembly emission (part_000 lines 1077-1121) -/

/-- JS `Math.round`: round half towards positive infinity. -/
def jsRound (q : ℚ) : ℤ := ⌊q + 1 / 2⌋

/-- Stage-H node materialization (lines 1078-1089): look up each UID and
drop the ones not found. -/
def materializeNodes (nodesByUid : ℕ → Option NodeS) (uids : List ℕ) : List NodeS :=
  uids.filterMap nodesByUid

/-- The emitted `mapData.nodes` field (line 1094): the referenced node
records, unchanged. -/
def mapDataNodes (nodesByUid : ℕ → Option NodeS)
    (referencedNodeUids : List ℕ) : List NodeS :=
  materializeNodes nodesByUid referencedNodeUids

/-- The emitted `mapData.elevation` field (lines 1095-1098): one rounded
integer triple per elevation node. -/
def mapDataElevation (nodesByUid : ℕ → Option NodeS)
    (elevationNodeUids : List ℕ) : List (ℤ × ℤ × ℤ) :=
  (materializeNodes nodesByUid elevationNodeUids).map fun n =>
    (jsRound n.x, jsRound n.y, jsRound n.z)

/-- C8 counterexample -- the emitted nodes field keeps the raw node record:
for a node at x = 1/2 the nodes array contains the unrounded coordinate
1/2, which differs from its rounding, so `mapData.nodes` is not an array of
rounded integer triples (only `mapData.elevation` is). -/
theorem mapDataNodes_not_rounded_counterexample :
    mapDataNodes (fun u => if u = 1 then some ⟨1 / 2, 0, 0⟩ else none) [1]
        = [⟨1 / 2, 0, 0⟩]
    ∧ ((⟨1 / 2, 0, 0⟩ : NodeS).x ≠ ((jsRound (⟨1 / 2, 0, 0⟩ : NodeS).x : ℤ) : ℚ))
    ∧ mapDataElevation (fun u => if u = 1 then some ⟨1 / 2, 0, 0⟩ else none) [1]
        = [(1, 0, 0)] := by
  refine ⟨rfl, by norm_num [jsRound], ?_⟩
  have h1 : List.filterMap
      (fun u => if u = 1 then some (⟨1 / 2, 0, 0⟩ : NodeS) else none) [1]
      = [⟨1 / 2, 0, 0⟩] := rfl
  rw [mapDataElevation, materializeNodes, h1, List.map_cons, List.map_nil]
  norm_num [jsRound, Prod.ext_iff]

/-- C8 (amended) -- in the emitted bundle the elevation field is an array
of integer triples, each obtained by rounding an elevation node's
coordinates to the nearest integer, while the nodes field is the array of
referenced node records looked up by UID, with their original (unrounded)
coordinates. -/
theorem mapData_emission_amended (nodesByUid : ℕ → Option NodeS)
    (refUids elevUids : List ℕ) :
    (∀ t ∈ mapDataElevation nodesByUid elevUids,
      ∃ n ∈ materializeNodes nodesByUid elevUids,
        t = (jsRound n.x, jsRound n.y, jsRound n.z))
    ∧ (∀ n ∈ mapDataNodes nodesByUid refUids,
      ∃ uid ∈ refUids, nodesByUid uid = some n) := by
  constructor
  · intro t ht
    rw [mapDataElevation, List.mem_map] at ht
    obtain ⟨n, hn, rfl⟩ := ht
    exact ⟨n, hn, rfl⟩
  · intro n hn
    rw [mapDataNodes, materializeNodes, List.mem_filterMap] at hn
    exact hn

/-- Witness for `mapData_emission_amended`: the elevation triple (1, 0, 0)
produced from the node at (1/2, 0, 0). -/
theorem mapData_emission_amended_witness :
    ∃ n ∈ materializeNodes
        (fun u => if u = 1 then some (⟨1 / 2, 0, 0⟩ : NodeS) else none) [1],
      ((1 : ℤ), (0 : ℤ), (0 : ℤ)) = (jsRound n.x, jsRound n.y, jsRound n.z) :=
  (mapData_emission_amended
      (fun u => if u = 1 then some ⟨1 / 2, 0, 0⟩ else none) [] [1]).1
    (1, 0, 0) (by norm_num [mapDataElevation, materializeNodes, jsRound])

/-! ### Mileage-target augmentation (part_000 lines 1058-1075)

```ts
for (const [token, target] of defData.mileageTargets) {
  if ((target.x && target.y) || !target.nodeUid) continue;
  const { nodeUid, ...targetWithoutNodeUid } = target;
  const node = nodesByUid.get(nodeUid);
  if (node) {
    defData.mileageTargets.set(token, {
      ...targetWithoutNodeUid,
      x: Math.round(node.x * 100) / 100,
      y: Math.round(node.y * 100) / 100,
    });
  }
}
```

`payload` stands for the target's remaining fields, spread through
unchanged. -/

structure MileageTarget : Type where
  x : Option ℚ
  y : Option ℚ
  nodeUid : Option ℕ
  payload : ℕ
deriving DecidableEq, Repr

/-- JS truthiness of an optional numeric field: `undefined` and `0` are
falsy. -/
def truthy : Option ℚ → Bool
  | Option.none => false
  | some q => decide (q ≠ 0)

/-- Round to 2 decimal places: `Math.round(v * 100) / 100`. -/
def round2 (q : ℚ) : ℚ := (jsRound (q * 100) : ℚ) / 100

def augmentMileageTarget (nodesByUid : ℕ → Option NodeS)
    (t : MileageTarget) : MileageTarget :=
  if truthy t.x && truthy t.y then t
  else
    match t.nodeUid with
    | Option.none => t
    | some uid =>
      match nodesByUid uid with
      | some node =>
        { t with
          x := some (round2 node.x)
          y := some (round2 node.y)
          nodeUid := Option.none }
      | Option.none => t

/-- C9 counterexample -- presence of explicit coordinates is tested with
JS truthiness, so a target with the explicit coordinates x = 0, y = 5 and
a resolvable node UID is NOT left unchanged: its position is overwritten
with the node's rounded position (3.14, 2) and the node-UID field is
dropped. -/
theorem augmentMileageTarget_zero_coord_counterexample :
    (⟨some 0, some 5, some 1, 7⟩ : MileageTarget).x = some 0
    ∧ (⟨some 0, some 5, some 1, 7⟩ : MileageTarget).y = some 5
    ∧ augmentMileageTarget (fun u => if u = 1 then some ⟨157 / 50, 2, 0⟩ else none)
        ⟨some 0, some 5, some 1, 7⟩
      = ⟨some (157 / 50), some 2, Option.none, 7⟩
    ∧ (⟨some (157 / 50), some 2, Option.none, 7⟩ : MileageTarget)
        ≠ ⟨some 0, some 5, some 1, 7⟩ := by
  refine ⟨rfl, rfl, ?_, by norm_num [MileageTarget.mk.injEq]⟩
  norm_num [augmentMileageTarget, truthy, round2, jsRound]

/-- C9 (amended) -- a mileage target whose x and y are both present and
nonzero (JS truthiness; a zero coordinate counts as missing), or which
lacks a node UID, or whose node is not found, is left unchanged; every
other target is replaced by one whose x and y are the node's position
rounded to 2 decimal places and which loses its node-UID field. -/
theorem augmentMileageTarget_characterization (nodesByUid : ℕ → Option NodeS)
    (t : MileageTarget) :
    (truthy t.x = true → truthy t.y = true →
      augmentMileageTarget nodesByUid t = t)
    ∧ (t.nodeUid = Option.none → augmentMileageTarget nodesByUid t = t)
    ∧ (∀ uid, t.nodeUid = some uid → nodesByUid uid = Option.none →
      augmentMileageTarget nodesByUid t = t)
    ∧ (∀ uid node, (truthy t.x = false ∨ truthy t.y = false) →
      t.nodeUid = some uid → nodesByUid uid = some node →
      augmentMileageTarget nodesByUid t
        = { t with
            x := some (round2 node.x)
            y := some (round2 node.y)
            nodeUid := Option.none }) := by
  refine ⟨?_, ?_, ?_, ?_⟩
  · intro hx hy
    rw [augmentMileageTarget, if_pos (by rw [hx, hy]; rfl)]
  · intro hu
    rw [augmentMileageTarget, hu]
    split <;> rfl
  · intro uid hu hn
    rw [augmentMileageTarget, hu]
    dsimp only
    rw [hn]
    split <;> rfl
  · intro uid node hxy hu hn
    have hcond : (truthy t.x && truthy t.y) = false := by
      rcases hxy with h | h <;> simp [h]
    rw [augmentMileageTarget, hcond, hu]
    dsimp only
    rw [hn]
    rfl

/-- Witness for `augmentMileageTarget_characterization`: a target lacking
x entirely, with node UID 1 resolving to (3.14159..., 2, 0), is replaced by
its rounded position (314.16/100 scale: here 157/50 rounds to itself). -/
theorem augmentMileageTarget_characterization_witness :
    augmentMileageTarget (fun u => if u = 1 then some ⟨157 / 50, 2, 0⟩ else none)
        ⟨Option.none, some 5, some 1, 7⟩
      = ⟨some (round2 (157 / 50)), some (round2 2), Option.none, 7⟩ :=
  (augmentMileageTarget_characterization
      (fun u => if u = 1 then some ⟨157 / 50, 2, 0⟩ else none)
      ⟨Option.none, some 5, some 1, 7⟩).2.2.2 1 ⟨157 / 50, 2, 0⟩
    (Or.inl rfl) rfl rfl
